import Mathlib

/-!
Shallow embedding of the cpu-power-manager core (src/backend/cpu.rs and
src/backend/profile.rs).

The kernel cpufreq pseudo-filesystem is modelled by the structure `SysFs`:
each control file a `CpuManager` operation touches is a field, per-core
files are functions from the core index.  A numeric field of type
`Option Nat` is the parsed content of the file (`none` = the file is
missing or its content does not parse, both of which the Rust code turns
into an `anyhow` error on read).  Files whose existence the code tests
separately (`online`, `energy_performance_preference`,
`scaling_available_frequencies`, the ACPI `boost` flag) carry an explicit
existence flag next to the content.

Mutating operations are functions `SysFs → Except CpuError Unit × SysFs`:
the second component is the pseudo-filesystem after the call, so a failing
call that already wrote some files is representable (fail-fast without
rollback).  `u32` arithmetic on write is modelled by reduction modulo
`2 ^ 32`.

The ambient process credential consulted by `nix::unistd::Uid::effective`
is carried as the extra field `euid_is_root` of `CpuManager`.

Each distinct `anyhow::bail!` / error-context site of the source is one
constructor of `CpuError`; the doc comment of a constructor records the
message the source attaches there.
-/

/-- `CpuDriver` from src/backend/cpu.rs. -/
inductive CpuDriver where
  | IntelPstate
  | AmdPstate
  | AcpiCpufreq
  | Unknown
deriving DecidableEq, Repr

/-- `TurboMode` from src/backend/profile.rs. -/
inductive TurboMode where
  | Always
  | Auto
  | Never
deriving DecidableEq, Repr

/-- The distinct error outcomes of the embedded operations, one constructor
per `bail!`/error site of the source.
`permissionDenied` is the error of `check_write_permission`; in the source
it carries the remediation text "Root privileges required. Please run with
sudo or configure PolicyKit: sudo cpu-power-manager / Or install PolicyKit
policy: sudo cp assets/com.cpupowermanager.policy
/usr/share/polkit-1/actions/".
`cannotOfflineCore0` is "Cannot offline core 0".
`eppNotSupportedDriver` is "EPP only supported on Intel Pstate driver".
`eppNotSupported` is the `get_epp` message "EPP not supported".
`turboNotSupported` is "Turbo control not supported for this driver".
`turboNotAvailable` is "Turbo boost control not available".
`governorNotAvailable` is "Governor not available"; `noSuitableGovernor`
is "No suitable governor available"; `ioError` stands for any
read/parse failure with its context string. -/
inductive CpuError where
  | permissionDenied
  | cannotOfflineCore0
  | eppNotSupportedDriver
  | eppNotSupported
  | turboNotSupported
  | turboNotAvailable
  | governorNotAvailable (governor : String) (available : List String)
  | noSuitableGovernor (profileName : String)
  | ioError (what : String)
deriving DecidableEq, Repr

/-- The slice of the cpufreq pseudo-filesystem the embedded operations
touch.  Per-core numeric files hold parsed kHz contents. -/
structure SysFs where
  scaling_cur_freq : Nat → Option Nat
  scaling_setspeed : Nat → Option Nat
  scaling_min_freq : Nat → Option Nat
  scaling_max_freq : Nat → Option Nat
  cpuinfo_min_freq : Nat → Option Nat
  cpuinfo_max_freq : Nat → Option Nat
  scaling_governor : Nat → Option String
  scaling_available_governors : Nat → Option (List String)
  epp_file_present : Nat → Bool
  epp_content : Nat → Option String
  online_file_present : Nat → Bool
  online_content : Nat → Option Nat
  no_turbo : Option Nat
  boost_file_present : Bool
  boost_content : Option Nat

/-- `CpuManager` from src/backend/cpu.rs: the cached topology and driver,
plus the ambient process credential read by `check_write_permission`. -/
structure CpuManager where
  core_count : Nat
  driver : CpuDriver
  euid_is_root : Bool

/-- Modulus of Rust `u32` arithmetic. -/
def U32 : Nat := 2 ^ 32

/-- `CpuManager::check_write_permission`. -/
def check_write_permission (m : CpuManager) : Except CpuError Unit :=
  if m.euid_is_root then .ok () else .error .permissionDenied

/-- `CpuManager::detect_core_count`: the directory listing is `none` when
the base directory cannot be read, otherwise the list of entry names
(erroneous entries are already dropped by `filter_map(|e| e.ok())`).
An entry is counted when its name starts with "cpu" and every character
after the first three is numeric: `starts_with("cpu")` is the statement
that the first three characters are exactly c, p, u, and `chars().skip(3)`
is `toList.drop 3`.  Rust `char::is_numeric` agrees with `Char.isDigit` on
ASCII; sysfs entry names are ASCII. -/
def core_entry (name : String) : Bool :=
  decide (name.toList.take 3 = ['c', 'p', 'u']) &&
    (name.toList.drop 3).all Char.isDigit

def detect_core_count (listing : Option (List String)) : Except CpuError Nat :=
  match listing with
  | none => .error (.ioError "Failed to read CPU directory")
  | some entries => .ok (entries.countP core_entry)

/-- `CpuManager::get_frequency` (reads `scaling_cur_freq`, kHz to MHz). -/
def get_frequency (_m : CpuManager) (fs : SysFs) (core : Nat) :
    Except CpuError Nat :=
  match fs.scaling_cur_freq core with
  | some khz => .ok (khz / 1000)
  | none => .error (.ioError "Failed to read frequency")

/-- `CpuManager::get_scaling_min_freq`. -/
def get_scaling_min_freq (_m : CpuManager) (fs : SysFs) (core : Nat) :
    Except CpuError Nat :=
  match fs.scaling_min_freq core with
  | some khz => .ok (khz / 1000)
  | none => .error (.ioError "Failed to read min frequency")

/-- `CpuManager::get_scaling_max_freq`. -/
def get_scaling_max_freq (_m : CpuManager) (fs : SysFs) (core : Nat) :
    Except CpuError Nat :=
  match fs.scaling_max_freq core with
  | some khz => .ok (khz / 1000)
  | none => .error (.ioError "Failed to read max frequency")

/-- `CpuManager::get_hardware_min_freq` (reads `cpuinfo_min_freq`). -/
def get_hardware_min_freq (_m : CpuManager) (fs : SysFs) (core : Nat) :
    Except CpuError Nat :=
  match fs.cpuinfo_min_freq core with
  | some khz => .ok (khz / 1000)
  | none => .error (.ioError "Failed to read hardware min frequency")

/-- `CpuManager::get_hardware_max_freq` (reads `cpuinfo_max_freq`). -/
def get_hardware_max_freq (_m : CpuManager) (fs : SysFs) (core : Nat) :
    Except CpuError Nat :=
  match fs.cpuinfo_max_freq core with
  | some khz => .ok (khz / 1000)
  | none => .error (.ioError "Failed to read hardware max frequency")

/-- `CpuManager::get_available_governors` (whitespace-split list,
pre-split in the model). -/
def get_available_governors (_m : CpuManager) (fs : SysFs) (core : Nat) :
    Except CpuError (List String) :=
  match fs.scaling_available_governors core with
  | some gs => .ok gs
  | none => .error (.ioError "Failed to read available governors")

/-- `CpuManager::set_frequency`: permission gate, then write
`freq_mhz * 1000` (as `u32`) to `scaling_setspeed`. -/
def set_frequency (m : CpuManager) (fs : SysFs) (core freq_mhz : Nat) :
    Except CpuError Unit × SysFs :=
  match check_write_permission m with
  | .error e => (.error e, fs)
  | .ok () =>
    let freq_khz := freq_mhz * 1000 % U32
    (.ok (), { fs with scaling_setspeed :=
      fun c => if c = core then some freq_khz else fs.scaling_setspeed c })

/-- `CpuManager::set_scaling_min_freq`. -/
def set_scaling_min_freq (m : CpuManager) (fs : SysFs) (core freq_mhz : Nat) :
    Except CpuError Unit × SysFs :=
  match check_write_permission m with
  | .error e => (.error e, fs)
  | .ok () =>
    let freq_khz := freq_mhz * 1000 % U32
    (.ok (), { fs with scaling_min_freq :=
      fun c => if c = core then some freq_khz else fs.scaling_min_freq c })

/-- `CpuManager::set_scaling_max_freq`. -/
def set_scaling_max_freq (m : CpuManager) (fs : SysFs) (core freq_mhz : Nat) :
    Except CpuError Unit × SysFs :=
  match check_write_permission m with
  | .error e => (.error e, fs)
  | .ok () =>
    let freq_khz := freq_mhz * 1000 % U32
    (.ok (), { fs with scaling_max_freq :=
      fun c => if c = core then some freq_khz else fs.scaling_max_freq c })

/-- `CpuManager::set_governor`: permission gate, validate against the
per-core available list, then write. -/
def set_governor (m : CpuManager) (fs : SysFs) (core : Nat)
    (governor : String) : Except CpuError Unit × SysFs :=
  match check_write_permission m with
  | .error e => (.error e, fs)
  | .ok () =>
    match get_available_governors m fs core with
    | .error e => (.error e, fs)
    | .ok available =>
      if available.contains governor then
        (.ok (), { fs with scaling_governor :=
          fun c => if c = core then some governor else fs.scaling_governor c })
      else
        (.error (.governorNotAvailable governor available), fs)

/-- Fail-fast iteration over a list of core indices, threading the
pseudo-filesystem (the shape of every `for core in 0..core_count` loop
with `?` in the source). -/
def forCores (f : Nat → SysFs → Except CpuError Unit × SysFs) :
    List Nat → SysFs → Except CpuError Unit × SysFs
  | [], fs => (.ok (), fs)
  | c :: rest, fs =>
    match f c fs with
    | (.error e, fs1) => (.error e, fs1)
    | (.ok (), fs1) => forCores f rest fs1

/-- `CpuManager::set_governor_all`. -/
def set_governor_all (m : CpuManager) (fs : SysFs) (governor : String) :
    Except CpuError Unit × SysFs :=
  forCores (fun c fs1 => set_governor m fs1 c governor)
    (List.range m.core_count) fs

/-- `CpuManager::is_turbo_enabled`: Intel reads the inverted `no_turbo`
flag, ACPI reads `boost` when present (absent means disabled), any other
driver reports disabled. -/
def is_turbo_enabled (m : CpuManager) (fs : SysFs) : Except CpuError Bool :=
  match m.driver with
  | .IntelPstate =>
    match fs.no_turbo with
    | some v => .ok (decide (v = 0))
    | none => .error (.ioError "Failed to read turbo state")
  | .AcpiCpufreq =>
    if fs.boost_file_present then
      match fs.boost_content with
      | some v => .ok (decide (v = 1))
      | none => .error (.ioError "Failed to read boost state")
    else
      .ok false
  | _ => .ok false

/-- `CpuManager::set_turbo`: permission gate, then driver dispatch. -/
def set_turbo (m : CpuManager) (fs : SysFs) (enable : Bool) :
    Except CpuError Unit × SysFs :=
  match check_write_permission m with
  | .error e => (.error e, fs)
  | .ok () =>
    match m.driver with
    | .IntelPstate =>
      (.ok (), { fs with no_turbo := some (if enable then 0 else 1) })
    | .AcpiCpufreq =>
      if fs.boost_file_present then
        (.ok (), { fs with boost_content := some (if enable then 1 else 0) })
      else
        (.error .turboNotAvailable, fs)
    | _ => (.error .turboNotSupported, fs)

/-- One iteration of the `set_epp` loop: write the value when the
per-core `energy_performance_preference` file exists, otherwise skip. -/
def set_epp_core (epp : String) (core : Nat) (fs : SysFs) :
    Except CpuError Unit × SysFs :=
  if fs.epp_file_present core then
    (.ok (), { fs with epp_content :=
      fun c => if c = core then some epp else fs.epp_content c })
  else
    (.ok (), fs)

/-- `CpuManager::set_epp`: driver check, permission gate, then the
best-effort per-core loop. -/
def set_epp (m : CpuManager) (fs : SysFs) (epp : String) :
    Except CpuError Unit × SysFs :=
  if m.driver ≠ CpuDriver.IntelPstate then
    (.error .eppNotSupportedDriver, fs)
  else
    match check_write_permission m with
    | .error e => (.error e, fs)
    | .ok () => forCores (set_epp_core epp) (List.range m.core_count) fs

/-- `CpuManager::get_epp`: reads the per-core file when it exists,
fails with "EPP not supported" when it does not (no driver check). -/
def get_epp (_m : CpuManager) (fs : SysFs) (core : Nat) :
    Except CpuError String :=
  if fs.epp_file_present core then
    match fs.epp_content core with
    | some s => .ok s
    | none => .error (.ioError "Failed to read EPP")
  else
    .error .eppNotSupported

/-- `CpuManager::is_core_online`: core 0 is reported online without
touching the pseudo-filesystem; a missing `online` file means online. -/
def is_core_online (_m : CpuManager) (fs : SysFs) (core : Nat) :
    Except CpuError Bool :=
  if core = 0 then
    .ok true
  else if ! fs.online_file_present core then
    .ok true
  else
    match fs.online_content core with
    | some v => .ok (decide (v = 1))
    | none => .error (.ioError "Failed to read core online state")

/-- `CpuManager::set_core_online`: the core-0 precondition comes before
the permission gate and before any write. -/
def set_core_online (m : CpuManager) (fs : SysFs) (core : Nat)
    (onl : Bool) : Except CpuError Unit × SysFs :=
  if core = 0 then
    (.error .cannotOfflineCore0, fs)
  else
    match check_write_permission m with
    | .error e => (.error e, fs)
    | .ok () =>
      if fs.online_file_present core then
        (.ok (), { fs with online_content :=
          fun c => if c = core then some (if onl then 1 else 0)
                   else fs.online_content c })
      else
        (.error (.ioError "Failed to set core online state"), fs)

/-- `Profile` from src/backend/profile.rs. -/
structure Profile where
  name : String
  description : String
  governor : String
  turbo : TurboMode
  min_freq_mhz : Option Nat
  max_freq_mhz : Option Nat
  epp : Option String
  epb : Option Nat

/-- `Profile::performance`. -/
def Profile.performance : Profile where
  name := "Performance"
  description := "Maximum performance, highest power consumption"
  governor := "performance"
  turbo := .Always
  min_freq_mhz := none
  max_freq_mhz := none
  epp := some "performance"
  epb := some 0

/-- `Profile::balanced`. -/
def Profile.balanced : Profile where
  name := "Balanced"
  description := "Balance between performance and power efficiency"
  governor := "powersave"
  turbo := .Auto
  min_freq_mhz := none
  max_freq_mhz := none
  epp := some "balance_performance"
  epb := some 6

/-- `Profile::powersave`. -/
def Profile.powersave : Profile where
  name := "Power Saver"
  description := "Maximum battery life, reduced performance"
  governor := "powersave"
  turbo := .Never
  min_freq_mhz := none
  max_freq_mhz := some 2400
  epp := some "power"
  epb := some 15

/-- `Profile::silent`. -/
def Profile.silent : Profile where
  name := "Silent"
  description := "Quiet operation, temperature priority"
  governor := "powersave"
  turbo := .Never
  min_freq_mhz := some 800
  max_freq_mhz := some 2000
  epp := some "power"
  epb := some 15

/-- `Profile::select_best_governor`: requested governor when available,
else the name-keyed fallback chain. -/
def select_best_governor (p : Profile) (available : List String) :
    Except CpuError String :=
  if available.contains p.governor then
    .ok p.governor
  else if p.name = "Performance" then
    if available.contains "performance" then .ok "performance"
    else if available.contains "powersave" then .ok "powersave"
    else .error (.noSuitableGovernor p.name)
  else if p.name = "Balanced" then
    if available.contains "schedutil" then .ok "schedutil"
    else if available.contains "ondemand" then .ok "ondemand"
    else if available.contains "powersave" then .ok "powersave"
    else if available.contains "performance" then .ok "performance"
    else .error (.noSuitableGovernor p.name)
  else
    if available.contains "powersave" then .ok "powersave"
    else if available.contains "conservative" then .ok "conservative"
    else if available.contains "ondemand" then .ok "ondemand"
    else .error (.noSuitableGovernor p.name)

/-- Sequencing of mutating steps inside `Profile::apply`: stop at the
first error, keep the pseudo-filesystem produced so far. -/
def andThen (s : Except CpuError Unit × SysFs)
    (f : SysFs → Except CpuError Unit × SysFs) :
    Except CpuError Unit × SysFs :=
  match s with
  | (.error e, fs) => (.error e, fs)
  | (.ok (), fs) => f fs

/-- The turbo step of `Profile::apply`: Always and Auto enable,
Never disables. -/
def apply_turbo (p : Profile) (m : CpuManager) (fs : SysFs) :
    Except CpuError Unit × SysFs :=
  match p.turbo with
  | .Always => set_turbo m fs true
  | .Never => set_turbo m fs false
  | .Auto => set_turbo m fs true

/-- The reset step of `Profile::apply` for one core: scaling min back to
the hardware min, then scaling max back to the hardware max. -/
def reset_core (m : CpuManager) (hw_min hw_max : Nat) (core : Nat)
    (fs : SysFs) : Except CpuError Unit × SysFs :=
  match set_scaling_min_freq m fs core hw_min with
  | (.error e, fs1) => (.error e, fs1)
  | (.ok (), fs1) => set_scaling_max_freq m fs1 core hw_max

/-- The optional profile-specific min bound step of `Profile::apply`. -/
def apply_min_bound (p : Profile) (m : CpuManager) (fs : SysFs) :
    Except CpuError Unit × SysFs :=
  match p.min_freq_mhz with
  | some f =>
    forCores (fun c fs1 => set_scaling_min_freq m fs1 c f)
      (List.range m.core_count) fs
  | none => (.ok (), fs)

/-- The optional profile-specific max bound step of `Profile::apply`. -/
def apply_max_bound (p : Profile) (m : CpuManager) (fs : SysFs) :
    Except CpuError Unit × SysFs :=
  match p.max_freq_mhz with
  | some f =>
    forCores (fun c fs1 => set_scaling_max_freq m fs1 c f)
      (List.range m.core_count) fs
  | none => (.ok (), fs)

/-- The EPP step of `Profile::apply`: a `set_epp` failure is logged and
swallowed, only the pseudo-filesystem it produced is kept. -/
def apply_epp (p : Profile) (m : CpuManager) (fs : SysFs) : SysFs :=
  match p.epp with
  | some e => (set_epp m fs e).2
  | none => fs

/-- `Profile::apply` up to and including the frequency-bound steps
(steps 1-6 of the resolution algorithm): governors queried on core 0,
governor resolved and applied to all cores, turbo applied, every core
reset to the hardware bounds read from core 0, then the optional
profile-specific bounds. -/
def apply_pre_epp (p : Profile) (m : CpuManager) (fs : SysFs) :
    Except CpuError Unit × SysFs :=
  match get_available_governors m fs 0 with
  | .error e => (.error e, fs)
  | .ok available =>
    match select_best_governor p available with
    | .error e => (.error e, fs)
    | .ok gov =>
      andThen (set_governor_all m fs gov) (fun fs1 =>
        andThen (apply_turbo p m fs1) (fun fs2 =>
          match get_hardware_min_freq m fs2 0 with
          | .error e => (.error e, fs2)
          | .ok hw_min =>
            match get_hardware_max_freq m fs2 0 with
            | .error e => (.error e, fs2)
            | .ok hw_max =>
              andThen
                (forCores (reset_core m hw_min hw_max)
                  (List.range m.core_count) fs2)
                (fun fs3 =>
                  andThen (apply_min_bound p m fs3)
                    (apply_max_bound p m))))

/-- `Profile::apply`: the pre-EPP steps, then the swallowed EPP step. -/
def Profile.apply (p : Profile) (m : CpuManager) (fs : SysFs) :
    Except CpuError Unit × SysFs :=
  andThen (apply_pre_epp p m fs) (fun fs5 => (.ok (), apply_epp p m fs5))

/-- A concrete populated pseudo-filesystem used to evaluate the theorems
on explicit inputs. -/
def fs0 : SysFs where
  scaling_cur_freq := fun _ => some 2400000
  scaling_setspeed := fun _ => some 2400000
  scaling_min_freq := fun _ => some 800000
  scaling_max_freq := fun _ => some 3000000
  cpuinfo_min_freq := fun _ => some 400000
  cpuinfo_max_freq := fun _ => some 3600000
  scaling_governor := fun _ => some "powersave"
  scaling_available_governors := fun _ => some ["powersave", "performance"]
  epp_file_present := fun _ => true
  epp_content := fun _ => some "balance_performance"
  online_file_present := fun _ => true
  online_content := fun _ => some 1
  no_turbo := some 0
  boost_file_present := true
  boost_content := some 1

/-- `fs0` with every per-core `online` file absent. -/
def fsNoOnline : SysFs :=
  { fs0 with online_file_present := fun _ => false }

/-- `fs0` with `scaling_cur_freq` reflecting a 2.4 GHz write. -/
def fsCur : SysFs :=
  { fs0 with scaling_cur_freq := fun _ => some 2400000 }

/-- C4: in every state `is_core_online` reports core 0 online without
consulting the pseudo-filesystem, and `set_core_online(0, false)` fails
with the core-0 precondition error (before the permission gate, whatever
the credential) leaving the pseudo-filesystem unchanged. -/
theorem core0_always_online_never_offlined :
    ∀ (m : CpuManager) (fs : SysFs),
      is_core_online m fs 0 = .ok true ∧
      set_core_online m fs 0 false = (.error .cannotOfflineCore0, fs) := by
  intro m fs
  exact ⟨rfl, rfl⟩

/-- C10: for every core index above 0, a missing per-core `online` file
makes `is_core_online` succeed with `true` instead of failing. -/
theorem missing_online_file_reports_online :
    ∀ (m : CpuManager) (fs : SysFs) (core : Nat),
      0 < core → fs.online_file_present core = false →
      is_core_online m fs core = .ok true := by
  intro m fs core hpos hfile
  have h0 : core ≠ 0 := Nat.pos_iff_ne_zero.mp hpos
  simp [is_core_online, h0, hfile]

/-- Witness for C10 at core 1 of a pseudo-filesystem without `online`
files. -/
theorem missing_online_file_reports_online_witness :
    is_core_online ⟨4, CpuDriver.AmdPstate, true⟩ fsNoOnline 1 = .ok true :=
  missing_online_file_reports_online ⟨4, CpuDriver.AmdPstate, true⟩
    fsNoOnline 1 (by decide) rfl

/-- C5 counterexample: on the AmdPstate and Unknown drivers the turbo
query `is_turbo_enabled` does not fail as the claim states: it succeeds
and returns `false` (the `_ => Ok(false)` arm). -/
theorem is_turbo_enabled_amd_returns_ok_false :
    is_turbo_enabled ⟨4, CpuDriver.AmdPstate, true⟩ fs0 = .ok false ∧
    is_turbo_enabled ⟨4, CpuDriver.Unknown, true⟩ fs0 = .ok false :=
  ⟨rfl, rfl⟩

/-- C5 amended: on AmdPstate and Unknown drivers the turbo query succeeds
and reports disabled, while the turbo mutation fails — with the
not-supported error when the process is privileged, with the permission
error otherwise. -/
theorem turbo_unsupported_driver_behavior :
    ∀ (m : CpuManager) (fs : SysFs) (enable : Bool),
      m.driver = CpuDriver.AmdPstate ∨ m.driver = CpuDriver.Unknown →
      is_turbo_enabled m fs = .ok false ∧
      set_turbo m fs enable =
        (.error (if m.euid_is_root then CpuError.turboNotSupported
                 else CpuError.permissionDenied), fs) := by
  intro m fs enable h
  constructor
  · rcases h with h1 | h1 <;> simp [is_turbo_enabled, h1]
  · rcases h with h1 | h1 <;>
      cases hroot : m.euid_is_root <;>
        simp [set_turbo, check_write_permission, h1, hroot]

/-- Witness for C5 on an AmdPstate manager running as root. -/
theorem turbo_unsupported_driver_behavior_witness :
    set_turbo ⟨4, CpuDriver.AmdPstate, true⟩ fs0 true =
      (.error CpuError.turboNotSupported, fs0) :=
  (turbo_unsupported_driver_behavior ⟨4, CpuDriver.AmdPstate, true⟩ fs0 true
    (Or.inl rfl)).2

/-- C6 counterexample: `get_epp` never looks at the detected driver; on an
AmdPstate manager whose per-core `energy_performance_preference` file
exists it succeeds instead of failing with "not supported". -/
theorem get_epp_succeeds_on_amd :
    get_epp ⟨4, CpuDriver.AmdPstate, true⟩ fs0 0 = .ok "balance_performance" :=
  rfl

/-- C3 counterexample: with a non-root credential,
`set_core_online(0, false)` fails with the core-0 precondition error, not
with the permission error the claim requires of every mutating
operation. -/
theorem nonroot_core0_offline_not_permission_error :
    set_core_online ⟨2, CpuDriver.AcpiCpufreq, false⟩ fs0 0 false =
      (.error CpuError.cannotOfflineCore0, fs0) ∧
    (set_core_online ⟨2, CpuDriver.AcpiCpufreq, false⟩ fs0 0 false).1 ≠
      .error CpuError.permissionDenied := by
  refine ⟨rfl, fun h => ?_⟩
  exact CpuError.noConfusion (Except.error.inj h)

/-- C3 amended: with a non-root credential every mutating operation fails
before writing anything, leaving the pseudo-filesystem unchanged; the
error is the remediation-carrying permission error, except that
`set_core_online` on core 0 fails with the core-0 precondition first and
`set_epp` on a non-IntelPstate driver fails with its driver check
first. -/
theorem nonroot_mutations_fail_before_write :
    ∀ (m : CpuManager) (fs : SysFs), m.euid_is_root = false →
      (∀ core freq, set_frequency m fs core freq =
        (.error .permissionDenied, fs)) ∧
      (∀ core freq, set_scaling_min_freq m fs core freq =
        (.error .permissionDenied, fs)) ∧
      (∀ core freq, set_scaling_max_freq m fs core freq =
        (.error .permissionDenied, fs)) ∧
      (∀ core gov, set_governor m fs core gov =
        (.error .permissionDenied, fs)) ∧
      (∀ enable, set_turbo m fs enable = (.error .permissionDenied, fs)) ∧
      (∀ epp, set_epp m fs epp =
        ((if m.driver = CpuDriver.IntelPstate then
            Except.error CpuError.permissionDenied
          else Except.error CpuError.eppNotSupportedDriver), fs)) ∧
      (∀ core onl, set_core_online m fs core onl =
        ((if core = 0 then Except.error CpuError.cannotOfflineCore0
          else Except.error CpuError.permissionDenied), fs)) := by
  intro m fs hroot
  refine ⟨fun core freq => ?_, fun core freq => ?_, fun core freq => ?_,
    fun core gov => ?_, fun enable => ?_, fun epp => ?_, fun core onl => ?_⟩
  · simp [set_frequency, check_write_permission, hroot]
  · simp [set_scaling_min_freq, check_write_permission, hroot]
  · simp [set_scaling_max_freq, check_write_permission, hroot]
  · simp [set_governor, check_write_permission, hroot]
  · simp [set_turbo, check_write_permission, hroot]
  · by_cases hd : m.driver = CpuDriver.IntelPstate <;>
      simp [set_epp, check_write_permission, hroot, hd]
  · by_cases hc : core = 0 <;>
      simp [set_core_online, check_write_permission, hroot, hc]

/-- Witness for C3 amended: a non-root frequency write on core 0 is
rejected with the permission error and the state is untouched. -/
theorem nonroot_mutations_fail_before_write_witness :
    set_frequency ⟨2, CpuDriver.AcpiCpufreq, false⟩ fs0 0 1000 =
      (.error CpuError.permissionDenied, fs0) :=
  (nonroot_mutations_fail_before_write ⟨2, CpuDriver.AcpiCpufreq, false⟩
    fs0 rfl).1 0 1000

/-- The directory-entry pattern the spec claims: "cpu" followed by one or
more decimal digits and nothing else. -/
def cpu_one_or_more_digits (name : String) : Prop :=
  ∃ ds : List Char, ds ≠ [] ∧ (∀ c ∈ ds, c.isDigit = true) ∧
    name.toList = 'c' :: 'p' :: 'u' :: ds

/-- The pattern the code actually counts: "cpu" followed by zero or more
decimal digits and nothing else. -/
def cpu_zero_or_more_digits (name : String) : Prop :=
  ∃ ds : List Char, (∀ c ∈ ds, c.isDigit = true) ∧
    name.toList = 'c' :: 'p' :: 'u' :: ds

/-- C9 counterexample: a listing consisting of the bare entry "cpu" is
counted by `detect_core_count` although it has no digit after the
prefix, so the claimed one-or-more-digits pattern does not describe the
count. -/
theorem detect_core_count_counts_bare_cpu :
    detect_core_count (some ["cpu"]) = .ok 1 ∧
    ¬ cpu_one_or_more_digits "cpu" := by
  refine ⟨rfl, ?_⟩
  rintro ⟨ds, hne, -, heq⟩
  have hc : "cpu".toList = ['c', 'p', 'u'] := by decide
  rw [hc] at heq
  simp only [List.cons.injEq, true_and] at heq
  exact hne heq.symm

/-- C9 amended: `detect_core_count` fails with an IO error exactly when
the base directory cannot be listed, and otherwise returns the number of
entries whose name is "cpu" followed by zero or more decimal digits and
nothing else (`core_entry` is shown equivalent to that pattern). -/
theorem detect_core_count_spec :
    (∀ entries : List String,
       detect_core_count (some entries) = .ok (entries.countP core_entry)) ∧
    (∀ name : String, core_entry name = true ↔ cpu_zero_or_more_digits name) ∧
    detect_core_count none = .error (.ioError "Failed to read CPU directory") := by
  refine ⟨fun entries => rfl, fun name => ?_, rfl⟩
  unfold core_entry cpu_zero_or_more_digits
  rw [Bool.and_eq_true, decide_eq_true_eq, List.all_eq_true]
  constructor
  · rintro ⟨ht, hd⟩
    refine ⟨name.toList.drop 3, ?_, ?_⟩
    · intro c hc
      exact hd c hc
    · conv_lhs => rw [← List.take_append_drop 3 name.toList]
      rw [ht]
      rfl
  · rintro ⟨ds, hds, heq⟩
    rw [heq]
    exact ⟨rfl, fun c hc => hds c hc⟩

/-- The name-keyed fallback ranking of `Profile::select_best_governor`,
written as the explicit candidate table of the spec. -/
def fallback_ranking (name : String) : List String :=
  if name = "Performance" then ["performance", "powersave"]
  else if name = "Balanced" then
    ["schedutil", "ondemand", "powersave", "performance"]
  else ["powersave", "conservative", "ondemand"]

/-- C2: `select_best_governor` returns the requested governor whenever the
available list contains it, otherwise the first available candidate of the
name-keyed ranking, and the no-suitable-governor error when the ranking is
exhausted; in particular it is deterministic and never returns a governor
outside the requested one and the ranking. -/
theorem select_best_governor_spec :
    ∀ (p : Profile) (available : List String),
      select_best_governor p available =
        if available.contains p.governor then .ok p.governor
        else
          match (fallback_ranking p.name).find? available.contains with
          | some g => .ok g
          | none => .error (.noSuitableGovernor p.name) := by
  intro p av
  by_cases hg : p.governor ∈ av
  · simp [select_best_governor, hg]
  · by_cases h1 : p.name = "Performance"
    · by_cases hp : "performance" ∈ av <;>
        by_cases hps : "powersave" ∈ av <;>
          simp [select_best_governor, fallback_ranking, List.find?,
            hg, h1, hp, hps]
    · by_cases h2 : p.name = "Balanced"
      · by_cases hs : "schedutil" ∈ av <;>
          by_cases ho : "ondemand" ∈ av <;>
            by_cases hps : "powersave" ∈ av <;>
              by_cases hp : "performance" ∈ av <;>
                simp [select_best_governor, fallback_ranking, List.find?,
                  hg, h1, h2, hs, ho, hps, hp]
      · by_cases hps : "powersave" ∈ av <;>
          by_cases hc : "conservative" ∈ av <;>
            by_cases ho : "ondemand" ∈ av <;>
              simp [select_best_governor, fallback_ranking, List.find?,
                hg, h1, h2, hps, hc, ho]

/-- A fail-fast core loop leaves any pseudo-filesystem component alone
that no single iteration changes. -/
theorem forCores_preserves {α : Type} (f : Nat → SysFs → Except CpuError Unit × SysFs)
    (proj : SysFs → α) (h : ∀ c fs, proj (f c fs).2 = proj fs) :
    ∀ (l : List Nat) (fs : SysFs), proj (forCores f l fs).2 = proj fs := by
  intro l
  induction l with
  | nil => intro fs; rfl
  | cons c rest ih =>
    intro fs
    have hc := h c fs
    rcases hfc : f c fs with ⟨r, fs1⟩
    rw [hfc] at hc
    cases r with
    | error e =>
      simp only [forCores, hfc]
      exact hc
    | ok u =>
      cases u
      simp only [forCores, hfc]
      exact (ih fs1).trans hc

/-- A core loop all of whose iterations succeed succeeds. -/
theorem forCores_all_ok (f : Nat → SysFs → Except CpuError Unit × SysFs)
    (h : ∀ c fs, (f c fs).1 = .ok ()) :
    ∀ (l : List Nat) (fs : SysFs), (forCores f l fs).1 = .ok () := by
  intro l
  induction l with
  | nil => intro fs; rfl
  | cons c rest ih =>
    intro fs
    have hc := h c fs
    rcases hfc : f c fs with ⟨r, fs1⟩
    rw [hfc] at hc
    dsimp only at hc
    subst hc
    simp only [forCores, hfc]
    exact ih fs1

/-- With a root credential a scaling-min write reduces to the pointwise
update of `scaling_min_freq`. -/
theorem set_scaling_min_freq_root (m : CpuManager) (hroot : m.euid_is_root = true)
    (fs : SysFs) (core v : Nat) :
    set_scaling_min_freq m fs core v =
      (.ok (), { fs with scaling_min_freq :=
        fun c => if c = core then some (v * 1000 % U32)
                 else fs.scaling_min_freq c }) := by
  simp [set_scaling_min_freq, check_write_permission, hroot]

/-- With a root credential a scaling-max write reduces to the pointwise
update of `scaling_max_freq`. -/
theorem set_scaling_max_freq_root (m : CpuManager) (hroot : m.euid_is_root = true)
    (fs : SysFs) (core v : Nat) :
    set_scaling_max_freq m fs core v =
      (.ok (), { fs with scaling_max_freq :=
        fun c => if c = core then some (v * 1000 % U32)
                 else fs.scaling_max_freq c }) := by
  simp [set_scaling_max_freq, check_write_permission, hroot]

/-- One `set_epp` iteration never fails. -/
theorem set_epp_core_fst (epp : String) :
    ∀ (c : Nat) (fs : SysFs), (set_epp_core epp c fs).1 = .ok () := by
  intro c fs
  by_cases h : fs.epp_file_present c = true <;> simp [set_epp_core, h]

/-- Final `energy_performance_preference` contents after the best-effort
`set_epp` loop: cores visited with the file present hold the new value,
all other cores are untouched. -/
theorem eppAll_content (epp : String) :
    ∀ (l : List Nat) (fs : SysFs) (core : Nat),
      ((forCores (set_epp_core epp) l fs).2).epp_content core =
        if core ∈ l ∧ fs.epp_file_present core = true then some epp
        else fs.epp_content core := by
  intro l
  induction l with
  | nil => intro fs core; simp [forCores]
  | cons a rest ih =>
    intro fs core
    by_cases hpa : fs.epp_file_present a = true
    · simp only [forCores, set_epp_core, hpa, if_true]
      rw [ih]
      by_cases ha : core = a
      · subst ha
        by_cases hr : core ∈ rest <;> simp [hpa, hr, List.mem_cons]
      · by_cases hr : core ∈ rest <;>
          by_cases hpc : fs.epp_file_present core = true <;>
            simp [ha, hr, hpc, List.mem_cons]
    · have hred : set_epp_core epp a fs = (.ok (), fs) := by
        simp [set_epp_core, hpa]
      simp only [forCores, hred]
      rw [ih]
      by_cases ha : core = a
      · subst ha
        simp [hpa, List.mem_cons]
      · simp [ha, List.mem_cons]

/-- C6 amended: `set_epp` fails with the not-supported error on every
non-IntelPstate driver; `get_epp` does not consult the driver: it fails
with its not-supported error exactly when the per-core file is absent —
when the file is present it returns the content when the read succeeds
and an IO error when it does not; on IntelPstate with a root credential
`set_epp` succeeds, writing the value to every visited core whose file
exists and silently skipping the others. -/
theorem epp_driver_check_and_skip :
    (∀ (m : CpuManager) (fs : SysFs) (epp : String),
       m.driver ≠ CpuDriver.IntelPstate →
       set_epp m fs epp = (.error .eppNotSupportedDriver, fs)) ∧
    (∀ (m : CpuManager) (fs : SysFs) (core : Nat),
       fs.epp_file_present core = false →
       get_epp m fs core = .error .eppNotSupported) ∧
    (∀ (m : CpuManager) (fs : SysFs) (core : Nat) (s : String),
       fs.epp_file_present core = true → fs.epp_content core = some s →
       get_epp m fs core = .ok s) ∧
    (∀ (m : CpuManager) (fs : SysFs) (core : Nat),
       fs.epp_file_present core = true → fs.epp_content core = none →
       get_epp m fs core = .error (.ioError "Failed to read EPP")) ∧
    (∀ (m : CpuManager) (fs : SysFs) (epp : String),
       m.driver = CpuDriver.IntelPstate → m.euid_is_root = true →
       (set_epp m fs epp).1 = .ok () ∧
       ∀ core, ((set_epp m fs epp).2).epp_content core =
         if core < m.core_count ∧ fs.epp_file_present core = true then some epp
         else fs.epp_content core) := by
  refine ⟨?_, ?_, ?_, ?_, ?_⟩
  · intro m fs epp hd
    simp [set_epp, hd]
  · intro m fs core hp
    simp [get_epp, hp]
  · intro m fs core s hp hc
    simp [get_epp, hp, hc]
  · intro m fs core hp hc
    simp [get_epp, hp, hc]
  · intro m fs epp hd hroot
    have hred : set_epp m fs epp =
        forCores (set_epp_core epp) (List.range m.core_count) fs := by
      simp [set_epp, hd, check_write_permission, hroot]
    rw [hred]
    refine ⟨forCores_all_ok _ (set_epp_core_fst epp) _ _, fun core => ?_⟩
    rw [eppAll_content]
    simp [List.mem_range]

/-- Witness for C6 on an AmdPstate manager: the driver check rejects the
set. -/
theorem epp_driver_check_and_skip_witness :
    set_epp ⟨4, CpuDriver.AmdPstate, true⟩ fs0 "power" =
      (.error CpuError.eppNotSupportedDriver, fs0) :=
  epp_driver_check_and_skip.1 ⟨4, CpuDriver.AmdPstate, true⟩ fs0 "power"
    (by decide)

/-- C8: with a root credential and a representable value,
`set_frequency(core, f)` succeeds and writes exactly `f * 1000` kHz;
`get_frequency` on a pseudo-file holding a kHz multiple of 1000 returns
exactly that value divided by 1000 (the conversion is lossless); when the
current-frequency file reflects the value just written, the read returns
`f` again; and repeating the identical write leaves the pseudo-filesystem
unchanged. -/
theorem frequency_conversion_roundtrip :
    ∀ (m : CpuManager) (fs : SysFs) (core f : Nat),
      m.euid_is_root = true → f * 1000 < U32 →
      ((set_frequency m fs core f).1 = .ok () ∧
       (set_frequency m fs core f).2.scaling_setspeed core = some (f * 1000)) ∧
      (∀ v, fs.scaling_cur_freq core = some v → v % 1000 = 0 →
        get_frequency m fs core = .ok (v / 1000) ∧ v / 1000 * 1000 = v) ∧
      (∀ fs2 : SysFs,
        fs2.scaling_cur_freq core =
          (set_frequency m fs core f).2.scaling_setspeed core →
        get_frequency m fs2 core = .ok f) ∧
      (set_frequency m (set_frequency m fs core f).2 core f).2 =
        (set_frequency m fs core f).2 := by
  intro m fs core f hroot hlt
  have hred : ∀ (g : SysFs), set_frequency m g core f =
      (.ok (), { g with scaling_setspeed :=
        fun c => if c = core then some (f * 1000 % U32)
                 else g.scaling_setspeed c }) := by
    intro g
    simp [set_frequency, check_write_permission, hroot]
  have hmod : f * 1000 % U32 = f * 1000 := Nat.mod_eq_of_lt hlt
  refine ⟨⟨?_, ?_⟩, ?_, ?_, ?_⟩
  · rw [hred]
  · rw [hred]
    simp [hmod]
  · intro v hv hmul
    refine ⟨by simp [get_frequency, hv], Nat.div_mul_cancel ?_⟩
    exact Nat.dvd_of_mod_eq_zero hmul
  · intro fs2 h2
    rw [hred] at h2
    simp only [if_pos rfl] at h2
    have hdiv : f * 1000 / 1000 = f := by omega
    simp [get_frequency, h2, hmod, hdiv]
  · rw [hred fs]
    rw [hred]
    simp only []
    congr 1
    funext c
    by_cases hc : c = core <;> simp [hc]

/-- A governor write never touches the hardware-limit files. -/
theorem set_governor_snd_cpuinfo (m : CpuManager) (g : String) :
    ∀ (c : Nat) (fs : SysFs),
      ((set_governor m fs c g).2).cpuinfo_min_freq = fs.cpuinfo_min_freq ∧
      ((set_governor m fs c g).2).cpuinfo_max_freq = fs.cpuinfo_max_freq := by
  intro c fs
  cases h : m.euid_is_root with
  | false => simp [set_governor, check_write_permission, h]
  | true =>
    cases h2 : fs.scaling_available_governors c with
    | none =>
      simp [set_governor, get_available_governors, check_write_permission, h, h2]
    | some gs =>
      by_cases hb : g ∈ gs <;>
        simp [set_governor, get_available_governors, check_write_permission,
          h, h2, hb]

/-- A turbo write never touches the hardware-limit files. -/
theorem set_turbo_snd_cpuinfo (m : CpuManager) (e : Bool) :
    ∀ (fs : SysFs),
      ((set_turbo m fs e).2).cpuinfo_min_freq = fs.cpuinfo_min_freq ∧
      ((set_turbo m fs e).2).cpuinfo_max_freq = fs.cpuinfo_max_freq := by
  intro fs
  cases h : m.euid_is_root <;> cases hd : m.driver <;>
    by_cases hb : fs.boost_file_present = true <;>
      simp [set_turbo, check_write_permission, h, hd, hb]

/-- The turbo step of a profile never touches the hardware-limit
files. -/
theorem apply_turbo_snd_cpuinfo (p : Profile) (m : CpuManager) :
    ∀ (fs : SysFs),
      ((apply_turbo p m fs).2).cpuinfo_min_freq = fs.cpuinfo_min_freq ∧
      ((apply_turbo p m fs).2).cpuinfo_max_freq = fs.cpuinfo_max_freq := by
  intro fs
  cases ht : p.turbo <;> simp [apply_turbo, ht, set_turbo_snd_cpuinfo]

/-- A successful turbo write implies a root credential. -/
theorem set_turbo_ok_root (m : CpuManager) (fs : SysFs) (e : Bool) :
    (set_turbo m fs e).1 = .ok () → m.euid_is_root = true := by
  intro h
  cases hr : m.euid_is_root
  · simp [set_turbo, check_write_permission, hr] at h
  · rfl

/-- A successful turbo step implies a root credential. -/
theorem apply_turbo_ok_root (p : Profile) (m : CpuManager) (fs : SysFs) :
    (apply_turbo p m fs).1 = .ok () → m.euid_is_root = true := by
  intro h
  cases ht : p.turbo <;> simp only [apply_turbo, ht] at h <;>
    exact set_turbo_ok_root m fs _ h

/-- A scaling-min write never touches `scaling_max_freq`. -/
theorem set_scaling_min_freq_snd_max (m : CpuManager) (v : Nat) :
    ∀ (c : Nat) (fs : SysFs),
      ((set_scaling_min_freq m fs c v).2).scaling_max_freq =
        fs.scaling_max_freq := by
  intro c fs
  cases h : m.euid_is_root <;>
    simp [set_scaling_min_freq, check_write_permission, h]

/-- A scaling-max write never touches `scaling_min_freq`. -/
theorem set_scaling_max_freq_snd_min (m : CpuManager) (v : Nat) :
    ∀ (c : Nat) (fs : SysFs),
      ((set_scaling_max_freq m fs c v).2).scaling_min_freq =
        fs.scaling_min_freq := by
  intro c fs
  cases h : m.euid_is_root <;>
    simp [set_scaling_max_freq, check_write_permission, h]

/-- Final `scaling_min_freq` contents after a min-bound core loop. -/
theorem minAll_values (m : CpuManager) (v : Nat) (hroot : m.euid_is_root = true) :
    ∀ (l : List Nat) (fs : SysFs) (core : Nat),
      ((forCores (fun c fs1 => set_scaling_min_freq m fs1 c v) l fs).2).scaling_min_freq core =
        if core ∈ l then some (v * 1000 % U32) else fs.scaling_min_freq core := by
  intro l
  induction l with
  | nil => intro fs core; simp [forCores]
  | cons a rest ih =>
    intro fs core
    simp only [forCores, set_scaling_min_freq_root m hroot fs a v]
    rw [ih]
    by_cases ha : core = a
    · subst ha
      by_cases hr : core ∈ rest <;> simp [hr, List.mem_cons]
    · by_cases hr : core ∈ rest <;> simp [ha, hr, List.mem_cons]

/-- Final `scaling_max_freq` contents after a max-bound core loop. -/
theorem maxAll_values (m : CpuManager) (v : Nat) (hroot : m.euid_is_root = true) :
    ∀ (l : List Nat) (fs : SysFs) (core : Nat),
      ((forCores (fun c fs1 => set_scaling_max_freq m fs1 c v) l fs).2).scaling_max_freq core =
        if core ∈ l then some (v * 1000 % U32) else fs.scaling_max_freq core := by
  intro l
  induction l with
  | nil => intro fs core; simp [forCores]
  | cons a rest ih =>
    intro fs core
    simp only [forCores, set_scaling_max_freq_root m hroot fs a v]
    rw [ih]
    by_cases ha : core = a
    · subst ha
      by_cases hr : core ∈ rest <;> simp [hr, List.mem_cons]
    · by_cases hr : core ∈ rest <;> simp [ha, hr, List.mem_cons]

/-- With a root credential the per-core reset reduces to the pointwise
update of both scaling-limit files. -/
theorem reset_core_root (m : CpuManager) (hroot : m.euid_is_root = true)
    (a b : Nat) : ∀ (core : Nat) (fs : SysFs),
    reset_core m a b core fs =
      (.ok (), { fs with
        scaling_min_freq := fun c =>
          if c = core then some (a * 1000 % U32) else fs.scaling_min_freq c,
        scaling_max_freq := fun c =>
          if c = core then some (b * 1000 % U32) else fs.scaling_max_freq c }) := by
  intro core fs
  simp [reset_core, set_scaling_min_freq_root m hroot,
    set_scaling_max_freq_root m hroot]

/-- Final `scaling_min_freq` contents after the reset loop. -/
theorem resetAll_min_values (m : CpuManager) (hroot : m.euid_is_root = true)
    (a b : Nat) :
    ∀ (l : List Nat) (fs : SysFs) (core : Nat),
      ((forCores (reset_core m a b) l fs).2).scaling_min_freq core =
        if core ∈ l then some (a * 1000 % U32) else fs.scaling_min_freq core := by
  intro l
  induction l with
  | nil => intro fs core; simp [forCores]
  | cons x rest ih =>
    intro fs core
    simp only [forCores, reset_core_root m hroot]
    rw [ih]
    by_cases ha : core = x
    · subst ha
      by_cases hr : core ∈ rest <;> simp [hr, List.mem_cons]
    · by_cases hr : core ∈ rest <;> simp [ha, hr, List.mem_cons]

/-- Final `scaling_max_freq` contents after the reset loop. -/
theorem resetAll_max_values (m : CpuManager) (hroot : m.euid_is_root = true)
    (a b : Nat) :
    ∀ (l : List Nat) (fs : SysFs) (core : Nat),
      ((forCores (reset_core m a b) l fs).2).scaling_max_freq core =
        if core ∈ l then some (b * 1000 % U32) else fs.scaling_max_freq core := by
  intro l
  induction l with
  | nil => intro fs core; simp [forCores]
  | cons x rest ih =>
    intro fs core
    simp only [forCores, reset_core_root m hroot]
    rw [ih]
    by_cases ha : core = x
    · subst ha
      by_cases hr : core ∈ rest <;> simp [hr, List.mem_cons]
    · by_cases hr : core ∈ rest <;> simp [ha, hr, List.mem_cons]

/-- The optional min-bound step never touches `scaling_max_freq`. -/
theorem apply_min_bound_snd_max (p : Profile) (m : CpuManager) :
    ∀ (fs : SysFs),
      ((apply_min_bound p m fs).2).scaling_max_freq = fs.scaling_max_freq := by
  intro fs
  cases hm : p.min_freq_mhz with
  | none => simp [apply_min_bound, hm]
  | some v =>
    simp only [apply_min_bound, hm]
    exact forCores_preserves _ (fun s => s.scaling_max_freq)
      (fun c fs1 => set_scaling_min_freq_snd_max m v c fs1) _ _

/-- The optional max-bound step never touches `scaling_min_freq`. -/
theorem apply_max_bound_snd_min (p : Profile) (m : CpuManager) :
    ∀ (fs : SysFs),
      ((apply_max_bound p m fs).2).scaling_min_freq = fs.scaling_min_freq := by
  intro fs
  cases hm : p.max_freq_mhz with
  | none => simp [apply_max_bound, hm]
  | some v =>
    simp only [apply_max_bound, hm]
    exact forCores_preserves _ (fun s => s.scaling_min_freq)
      (fun c fs1 => set_scaling_max_freq_snd_min m v c fs1) _ _

/-- Final `scaling_min_freq` contents after the optional min-bound
step. -/
theorem apply_min_bound_values (p : Profile) (m : CpuManager)
    (hroot : m.euid_is_root = true) :
    ∀ (fs : SysFs) (core : Nat), core < m.core_count →
      ((apply_min_bound p m fs).2).scaling_min_freq core =
        match p.min_freq_mhz with
        | some v => some (v * 1000 % U32)
        | none => fs.scaling_min_freq core := by
  intro fs core hc
  cases hm : p.min_freq_mhz with
  | none => simp [apply_min_bound, hm]
  | some v =>
    simp only [apply_min_bound, hm]
    rw [minAll_values m v hroot]
    simp [List.mem_range, hc]

/-- Final `scaling_max_freq` contents after the optional max-bound
step. -/
theorem apply_max_bound_values (p : Profile) (m : CpuManager)
    (hroot : m.euid_is_root = true) :
    ∀ (fs : SysFs) (core : Nat), core < m.core_count →
      ((apply_max_bound p m fs).2).scaling_max_freq core =
        match p.max_freq_mhz with
        | some v => some (v * 1000 % U32)
        | none => fs.scaling_max_freq core := by
  intro fs core hc
  cases hm : p.max_freq_mhz with
  | none => simp [apply_max_bound, hm]
  | some v =>
    simp only [apply_max_bound, hm]
    rw [maxAll_values m v hroot]
    simp [List.mem_range, hc]

/-- The swallowed EPP step never touches the scaling-limit files. -/
theorem set_epp_snd_scaling (m : CpuManager) (epp : String) :
    ∀ (fs : SysFs),
      ((set_epp m fs epp).2).scaling_min_freq = fs.scaling_min_freq ∧
      ((set_epp m fs epp).2).scaling_max_freq = fs.scaling_max_freq := by
  intro fs
  by_cases hd : m.driver = CpuDriver.IntelPstate
  · cases hr : m.euid_is_root
    · simp [set_epp, hd, check_write_permission, hr]
    · have h1 : set_epp m fs epp =
          forCores (set_epp_core epp) (List.range m.core_count) fs := by
        simp [set_epp, hd, check_write_permission, hr]
      rw [h1]
      constructor
      · exact forCores_preserves _ (fun s => s.scaling_min_freq)
          (fun c fs1 => by
            by_cases hb : fs1.epp_file_present c = true <;>
              simp [set_epp_core, hb]) _ _
      · exact forCores_preserves _ (fun s => s.scaling_max_freq)
          (fun c fs1 => by
            by_cases hb : fs1.epp_file_present c = true <;>
              simp [set_epp_core, hb]) _ _
  · simp [set_epp, hd]

/-- The EPP step of `Profile::apply` never touches the scaling-limit
files. -/
theorem apply_epp_snd_scaling (p : Profile) (m : CpuManager) :
    ∀ (fs : SysFs),
      (apply_epp p m fs).scaling_min_freq = fs.scaling_min_freq ∧
      (apply_epp p m fs).scaling_max_freq = fs.scaling_max_freq := by
  intro fs
  cases he : p.epp <;> simp [apply_epp, he, set_epp_snd_scaling]

/-- C1: every successful `Profile::apply` leaves every core's scaling min
and max equal to the hardware min/max read from core 0 — converted to MHz
and written back as kHz — unless the profile specifies `min_freq_mhz`
and/or `max_freq_mhz`, in which case those values hold instead, whatever
limits a previously applied profile had left behind in the starting
state. -/
theorem apply_resets_then_applies_bounds :
    ∀ (p : Profile) (m : CpuManager) (fs : SysFs) (kmin kmax : Nat),
      (Profile.apply p m fs).1 = .ok () →
      fs.cpuinfo_min_freq 0 = some kmin →
      fs.cpuinfo_max_freq 0 = some kmax →
      ∀ core, core < m.core_count →
        ((Profile.apply p m fs).2).scaling_min_freq core =
          some ((p.min_freq_mhz.getD (kmin / 1000)) * 1000 % U32) ∧
        ((Profile.apply p m fs).2).scaling_max_freq core =
          some ((p.max_freq_mhz.getD (kmax / 1000)) * 1000 % U32) := by
  intro p m fs kmin kmax hok hmin hmax core hcore
  rcases hpre : apply_pre_epp p m fs with ⟨r5, fs5⟩
  rw [Profile.apply, hpre] at hok
  cases r5 with
  | error e => simp [andThen] at hok
  | ok u =>
    cases u
    rw [Profile.apply, hpre]
    simp only [andThen]
    -- dissect the pre-EPP pipeline
    rw [apply_pre_epp] at hpre
    cases hga : get_available_governors m fs 0 with
    | error e => simp only [hga] at hpre; simp at hpre
    | ok available =>
      simp only [hga] at hpre
      cases hsel : select_best_governor p available with
      | error e => simp only [hsel] at hpre; simp at hpre
      | ok gov =>
        simp only [hsel] at hpre
        rcases hg1 : set_governor_all m fs gov with ⟨r1, fs1⟩
        simp only [hg1] at hpre
        cases r1 with
        | error e => simp [andThen] at hpre
        | ok u =>
          cases u
          simp only [andThen] at hpre
          rcases ht : apply_turbo p m fs1 with ⟨r2, fs2⟩
          simp only [ht] at hpre
          cases r2 with
          | error e => simp [andThen] at hpre
          | ok u =>
            cases u
            simp only [andThen] at hpre
            have hroot : m.euid_is_root = true :=
              apply_turbo_ok_root p m fs1 (by rw [ht])
            have hc1 : fs1.cpuinfo_min_freq = fs.cpuinfo_min_freq := by
              have hp := forCores_preserves _ (fun s => s.cpuinfo_min_freq)
                (fun c fsx => (set_governor_snd_cpuinfo m gov c fsx).1)
                (List.range m.core_count) fs
              rw [set_governor_all] at hg1
              rw [hg1] at hp
              exact hp
            have hc2 : fs1.cpuinfo_max_freq = fs.cpuinfo_max_freq := by
              have hp := forCores_preserves _ (fun s => s.cpuinfo_max_freq)
                (fun c fsx => (set_governor_snd_cpuinfo m gov c fsx).2)
                (List.range m.core_count) fs
              rw [set_governor_all] at hg1
              rw [hg1] at hp
              exact hp
            have hmin2 : fs2.cpuinfo_min_freq 0 = some kmin := by
              have h4 := (apply_turbo_snd_cpuinfo p m fs1).1
              rw [ht] at h4
              rw [show fs2.cpuinfo_min_freq = fs1.cpuinfo_min_freq from h4,
                hc1]
              exact hmin
            have hmax2 : fs2.cpuinfo_max_freq 0 = some kmax := by
              have h4 := (apply_turbo_snd_cpuinfo p m fs1).2
              rw [ht] at h4
              rw [show fs2.cpuinfo_max_freq = fs1.cpuinfo_max_freq from h4,
                hc2]
              exact hmax
            cases hhmin : get_hardware_min_freq m fs2 0 with
            | error e => simp only [hhmin] at hpre; simp at hpre
            | ok hw_min =>
              simp only [hhmin] at hpre
              cases hhmax : get_hardware_max_freq m fs2 0 with
              | error e => simp only [hhmax] at hpre; simp at hpre
              | ok hw_max =>
                simp only [hhmax] at hpre
                have hwv1 : hw_min = kmin / 1000 := by
                  rw [get_hardware_min_freq, hmin2] at hhmin
                  exact (Except.ok.inj hhmin).symm
                have hwv2 : hw_max = kmax / 1000 := by
                  rw [get_hardware_max_freq, hmax2] at hhmax
                  exact (Except.ok.inj hhmax).symm
                rcases hr3 : forCores (reset_core m hw_min hw_max)
                    (List.range m.core_count) fs2 with ⟨r3, fs3⟩
                simp only [hr3] at hpre
                cases r3 with
                | error e => simp [andThen] at hpre
                | ok u =>
                  cases u
                  simp only [andThen] at hpre
                  rcases hb4 : apply_min_bound p m fs3 with ⟨r4, fs4⟩
                  simp only [hb4] at hpre
                  cases r4 with
                  | error e => simp [andThen] at hpre
                  | ok u =>
                    cases u
                    simp only [andThen] at hpre
                    have hfs3min : fs3.scaling_min_freq core =
                        some (hw_min * 1000 % U32) := by
                      have hv := resetAll_min_values m hroot hw_min hw_max
                        (List.range m.core_count) fs2 core
                      rw [hr3] at hv
                      simpa [List.mem_range, hcore] using hv
                    have hfs3max : fs3.scaling_max_freq core =
                        some (hw_max * 1000 % U32) := by
                      have hv := resetAll_max_values m hroot hw_min hw_max
                        (List.range m.core_count) fs2 core
                      rw [hr3] at hv
                      simpa [List.mem_range, hcore] using hv
                    have hfs4min : fs4.scaling_min_freq core =
                        some ((p.min_freq_mhz.getD (kmin / 1000)) * 1000 % U32) := by
                      have hv := apply_min_bound_values p m hroot fs3 core hcore
                      rw [hb4] at hv
                      cases hm : p.min_freq_mhz with
                      | none =>
                        rw [hm] at hv
                        rw [hv, hfs3min, hwv1]
                        simp
                      | some v =>
                        rw [hm] at hv
                        rw [hv]
                        simp
                    have hfs4max : fs4.scaling_max_freq core =
                        some (hw_max * 1000 % U32) := by
                      have hp := apply_min_bound_snd_max p m fs3
                      rw [hb4] at hp
                      rw [show fs4.scaling_max_freq = fs3.scaling_max_freq from hp]
                      exact hfs3max
                    have hfs5max : fs5.scaling_max_freq core =
                        some ((p.max_freq_mhz.getD (kmax / 1000)) * 1000 % U32) := by
                      have hv := apply_max_bound_values p m hroot fs4 core hcore
                      rw [hpre] at hv
                      cases hm : p.max_freq_mhz with
                      | none =>
                        rw [hm] at hv
                        rw [hv, hfs4max, hwv2]
                        simp
                      | some v =>
                        rw [hm] at hv
                        rw [hv]
                        simp
                    have hfs5min : fs5.scaling_min_freq core =
                        some ((p.min_freq_mhz.getD (kmin / 1000)) * 1000 % U32) := by
                      have hp := apply_max_bound_snd_min p m fs4
                      rw [hpre] at hp
                      rw [show fs5.scaling_min_freq = fs4.scaling_min_freq from hp]
                      exact hfs4min
                    constructor
                    · rw [(apply_epp_snd_scaling p m fs5).1]
                      exact hfs5min
                    · rw [(apply_epp_snd_scaling p m fs5).2]
                      exact hfs5max

/-- Witness for C1: applying the Silent profile (min 800, max 2000 MHz)
as root on a two-core AcpiCpufreq machine ends with every core at
800000/2000000 kHz even though the starting state had narrower limits. -/
theorem apply_resets_then_applies_bounds_witness :
    ((Profile.apply Profile.silent ⟨2, CpuDriver.AcpiCpufreq, true⟩ fs0).2).scaling_min_freq 1 =
        some 800000 ∧
    ((Profile.apply Profile.silent ⟨2, CpuDriver.AcpiCpufreq, true⟩ fs0).2).scaling_max_freq 1 =
        some 2000000 := by
  have h := apply_resets_then_applies_bounds Profile.silent
    ⟨2, CpuDriver.AcpiCpufreq, true⟩ fs0 400000 3600000 rfl rfl rfl 1 (by decide)
  exact ⟨h.1, h.2⟩

/-- C7: a `set_epp` failure never aborts `Profile::apply` — when the
governor, turbo, reset and bound steps succeed, apply succeeds even
though the profile specifies an EPP hint, and on a non-IntelPstate
driver `set_epp` does fail at that point. -/
theorem epp_failure_never_aborts_apply :
    ∀ (p : Profile) (m : CpuManager) (fs : SysFs) (e : String),
      p.epp = some e →
      (apply_pre_epp p m fs).1 = .ok () →
      (Profile.apply p m fs).1 = .ok () ∧
      (m.driver ≠ CpuDriver.IntelPstate →
        (set_epp m (apply_pre_epp p m fs).2 e).1 =
          .error .eppNotSupportedDriver) := by
  intro p m fs e hepp hok
  constructor
  · rcases hpre : apply_pre_epp p m fs with ⟨r5, fs5⟩
    rw [hpre] at hok
    dsimp only at hok
    subst hok
    simp [Profile.apply, hpre, andThen]
  · intro hd
    simp [set_epp, hd]

/-- Witness for C7: Silent (which carries an EPP hint) applied as root on
a one-core AcpiCpufreq machine succeeds although its `set_epp` call
fails with the driver error. -/
theorem epp_failure_never_aborts_apply_witness :
    (Profile.apply Profile.silent ⟨1, CpuDriver.AcpiCpufreq, true⟩ fs0).1 =
      .ok () :=
  (epp_failure_never_aborts_apply Profile.silent
    ⟨1, CpuDriver.AcpiCpufreq, true⟩ fs0 "power" rfl rfl).1

/-- Witness for C8: after writing 2400 MHz, a current-frequency file
reflecting the written 2400000 kHz reads back as exactly 2400 MHz. -/
theorem frequency_conversion_roundtrip_witness :
    get_frequency ⟨2, CpuDriver.IntelPstate, true⟩ fsCur 0 = .ok 2400 :=
  ((frequency_conversion_roundtrip ⟨2, CpuDriver.IntelPstate, true⟩ fs0 0 2400
      rfl (by norm_num [U32])).2.2.1) fsCur rfl
